import Mathlib

/-!
Shallow embedding of the My-NBA-Tool report generator
(`src/generate_report.py` and `src/utils.py`).

Dates are modelled as proleptic Gregorian calendar dates (the semantics of
Python's `datetime.date`): a `Date` is a year/month/day triple, `toOrdinal`
is `date.toordinal()` (days since 0001-01-00, so 0001-01-01 has ordinal 1),
and `pyWeekday` is `date.weekday()` (Monday = 0, Sunday = 6).
-/

structure Date where
  y : ℕ
  m : ℕ
  d : ℕ
deriving Repr, DecidableEq

/-- Gregorian leap-year test, as implemented by Python's `calendar`/`datetime`. -/
def isLeap (y : ℕ) : Bool :=
  y % 4 == 0 && (y % 100 != 0 || y % 400 == 0)

/-- Number of days in month `m` of year `y`. -/
def daysInMonth (y m : ℕ) : ℕ :=
  if m = 2 then (if isLeap y then 29 else 28)
  else if m = 4 ∨ m = 6 ∨ m = 9 ∨ m = 11 then 30
  else 31

/-- Validity predicate for a calendar date (what `datetime.date(y, m, d)` accepts). -/
def isValidDate (y m d : ℕ) : Bool :=
  1 ≤ y && 1 ≤ m && m ≤ 12 && 1 ≤ d && d ≤ daysInMonth y m

/-- Days in all years strictly before year `y` (proleptic Gregorian). -/
def daysBeforeYear (y : ℕ) : ℕ :=
  365 * (y - 1) + (y - 1) / 4 - (y - 1) / 100 + (y - 1) / 400

/-- Days in the months of year `y` strictly before month `m`. -/
def daysBeforeMonth (y m : ℕ) : ℕ :=
  (List.range (m - 1)).foldl (fun acc i => acc + daysInMonth y (i + 1)) 0

/-- Python's `date.toordinal()`: 0001-01-01 is ordinal 1. -/
def toOrdinal (dt : Date) : ℕ :=
  daysBeforeYear dt.y + daysBeforeMonth dt.y dt.m + dt.d

/-- Python's `date.weekday()`: Monday = 0 .. Sunday = 6. -/
def pyWeekday (dt : Date) : ℕ :=
  (toOrdinal dt + 6) % 7

/-- The calendar day after `dt` (`dt + timedelta(days=1)`). -/
def nextDay (dt : Date) : Date :=
  if dt.d < daysInMonth dt.y dt.m then ⟨dt.y, dt.m, dt.d + 1⟩
  else if dt.m < 12 then ⟨dt.y, dt.m + 1, 1⟩
  else ⟨dt.y + 1, 1, 1⟩

/-- The calendar day before `dt` (`dt - timedelta(days=1)`). -/
def prevDay (dt : Date) : Date :=
  if 1 < dt.d then ⟨dt.y, dt.m, dt.d - 1⟩
  else if 1 < dt.m then ⟨dt.y, dt.m - 1, daysInMonth dt.y (dt.m - 1)⟩
  else ⟨dt.y - 1, 12, 31⟩

/-- `dt + timedelta(days=n)`. -/
def addDays : Date → ℕ → Date
  | dt, 0 => dt
  | ⟨y, m, d⟩, n + 1 => addDays (nextDay ⟨y, m, d⟩) n

/-- `dt - timedelta(days=n)`. -/
def subDays : Date → ℕ → Date
  | dt, 0 => dt
  | ⟨y, m, d⟩, n + 1 => subDays (prevDay ⟨y, m, d⟩) n

/-- The year-override in `generate_html_report` (generate_report.py lines 16-21):
if the system date's year is 2024, `today.replace(year=2025)` is attempted;
`replace` raises `ValueError` exactly when the resulting date is invalid
(Feb 29 into the non-leap 2025), in which case `today + timedelta(days=365)`
is used instead. -/
def timeTravel (dt : Date) : Date :=
  if dt.y = 2024 then
    (if isValidDate 2025 dt.m dt.d then ⟨2025, dt.m, dt.d⟩ else addDays dt 365)
  else dt

/-- `days_until_sunday = (6 - today.weekday()) % 7` (generate_report.py line 23). -/
def daysUntilSunday (dt : Date) : ℕ :=
  (6 - pyWeekday dt) % 7

/-- The loop of generate_report.py lines 259-275: starting from the pair
`(current_start, current_end)`, emit `n` windows, each next window being
`(end + 1 day, end + 7 days)`. Windows are pairs of day ordinals. -/
def weekWindowsAux : ℕ → ℕ × ℕ → List (ℕ × ℕ)
  | 0, _ => []
  | n + 1, (s, e) => (s, e) :: weekWindowsAux n (e + 1, e + 7)

/-- The four weekly windows generated by `generate_html_report` for a given
`today`: week 1 is `(today, today + days_until_sunday)` (lines 23-25) and the
loop produces four windows in total (lines 259-275), as day ordinals. -/
def weekWindows (today : Date) : List (ℕ × ℕ) :=
  weekWindowsAux 4 (toOrdinal today, toOrdinal today + daysUntilSunday today)

/-- Last two characters of `str(n)` — Python's `str(n)[-2:]`
(the whole string when it is shorter than 2 characters). -/
def lastTwoStr (n : ℕ) : String :=
  let s := toString n
  s.drop (s.length - 2)

/-- The season string computed at generate_report.py lines 33-37 from the
(possibly time-travelled) `today`. -/
def season_str (y m : ℕ) : String :=
  if 10 ≤ m then toString y ++ "-" ++ lastTwoStr (y + 1)
  else toString (y - 1) ++ "-" ++ lastTwoStr y

/-- The spec's reading of the season label: the trailing part is the last two
decimal digits of the year, i.e. the year mod 100 zero-padded to width 2. -/
def twoDigit (n : ℕ) : String :=
  (if n % 100 < 10 then "0" else "") ++ toString (n % 100)

/-- Season label as the spec words it ("{Y}-{(Y+1)%100}" / "{Y-1}-{Y%100}"
with the two-digit reading of the examples). -/
def seasonLabelSpec (y m : ℕ) : String :=
  if 10 ≤ m then toString y ++ "-" ++ twoDigit (y + 1)
  else toString (y - 1) ++ "-" ++ twoDigit y

/-!
Embedding of `src/utils.py`.

Remote calls are modelled by a transcript `f : ℕ → Except ε α` giving the
outcome of attempt `i` (0-based): `Except.error e` means the attempt raised a
transient error `e`, `Except.ok a` means it returned `a`.
-/

/-- The loop body of `retry_api_call` (utils.py lines 15-26), with explicit
fuel equal to the number of remaining loop iterations.  The result is the pair
of (what the Python function does: return a value, raise the last error, or
fall off the loop returning `None` — only possible with `retries = 0`) and the
total number of seconds slept.  On a failing attempt `i` with `i < retries-1`
the loop sleeps `delay * (i+1)` seconds; on the last attempt it re-raises
without sleeping. -/
def retryGo (f : ℕ → Except ε α) (retries delay : ℕ) :
    ℕ → ℕ → ℕ → Option (Except ε α) × ℕ
  | 0, _, slept => (none, slept)
  | fuel + 1, i, slept =>
    match f i with
    | Except.ok a => (some (Except.ok a), slept)
    | Except.error e =>
      if i < retries - 1 then
        retryGo f retries delay fuel (i + 1) (slept + delay * (i + 1))
      else (some (Except.error e), slept)

/-- `retry_api_call(func, retries, delay)` from utils.py lines 11-26 (the code
calls it with the defaults `retries=5, delay=5`). -/
def retry_api_call (f : ℕ → Except ε α) (retries delay : ℕ) :
    Option (Except ε α) × ℕ :=
  retryGo f retries delay retries 0 0

/-- One row of the schedule DataFrame after column selection
(utils.py line 56): TEAM_ID, TEAM_ABBREVIATION, GAME_DATE (as a day
ordinal), MATCHUP. -/
structure GameRow where
  team_id : ℕ
  team_abbr : String
  game_date : ℕ
  matchup : String
deriving Repr, DecidableEq

/-- `get_schedule` (utils.py lines 28-62): the remote call is wrapped in
`retry_api_call`; any exception escaping it is caught and turned into an
empty DataFrame, and an empty result set is also returned as an empty
DataFrame.  Column selection and dtype normalisation are identities in this
typed embedding. -/
def get_schedule (f : ℕ → Except ℕ (List GameRow)) : List GameRow :=
  match retry_api_call f 5 5 with
  | (some (Except.ok games), _) => if games.isEmpty then [] else games
  | _ => []

/-- One row of a player-stats DataFrame after column selection
(utils.py lines 94-100). -/
structure StatRow where
  player_id : ℕ
  player_name : String
  team_id : ℕ
  team_abbr : String
  gp : ℕ
  mins : ℚ
  pts : ℚ
  reb : ℚ
  ast : ℚ
  stl : ℚ
  blk : ℚ
  fg_pct : ℚ
  ft_pct : ℚ
  fg3m : ℚ
deriving Repr, DecidableEq

/-- The inner `fetch_stats` of `get_player_stats_multi_period`
(utils.py lines 75-102): the retried call's failure is caught and converted
to an empty DataFrame; otherwise the frame is returned (column selection is
an identity here). -/
def fetch_stats (f : ℕ → Except ℕ (List StatRow)) : List StatRow :=
  match retry_api_call f 5 5 with
  | (some (Except.ok df), _) => df
  | _ => []

/-- The two `date_from` filters computed by `get_player_stats_multi_period`
(utils.py lines 107-122): `today` is read from the system clock (no year
override here), and the L7/L14 fetches use `today - 7 days` and
`today - 14 days`. -/
def get_player_stats_multi_period_dates (now : Date) : Date × Date :=
  (subDays now 7, subDays now 14)

/-- One row of the advanced team-stats DataFrame used by
`get_team_defensive_ratings`. -/
structure TeamAdvRow where
  team_id : ℕ
  def_rating : ℚ
  w_pct : ℚ
deriving Repr, DecidableEq

/-- Insertion of a row into a list sorted ascending by `def_rating`. -/
def insertByRating (r : TeamAdvRow) : List TeamAdvRow → List TeamAdvRow
  | [] => [r]
  | x :: xs => if r.def_rating ≤ x.def_rating then r :: x :: xs
               else x :: insertByRating r xs

/-- Sort rows ascending by `def_rating` (utils.py line 157: lower rating =
better defense = rank 1). -/
def sortByRating (rows : List TeamAdvRow) : List TeamAdvRow :=
  rows.foldr insertByRating []

/-- `get_team_defensive_ratings` (utils.py lines 130-175): on failure of the
retried call an empty mapping is returned; otherwise rows are sorted by
defensive rating and assigned dense ranks 1..N, keyed by the abbreviation
found in the static id-to-abbreviation map (default `"UNK"`).  The mapping is
modelled as an association list. -/
def get_team_defensive_ratings (f : ℕ → Except ℕ (List TeamAdvRow))
    (idToAbbr : List (ℕ × String)) : List (String × ℕ) :=
  match retry_api_call f 5 5 with
  | (some (Except.ok df), _) =>
    let sorted := sortByRating df
    (List.range sorted.length).filterMap fun i =>
      (sorted.get? i).map fun r =>
        (((idToAbbr.find? (fun p => p.1 == r.team_id)).map Prod.snd).getD "UNK", i + 1)
  | _ => []

/-- `get_color_for_rank` (utils.py lines 177-193), verbatim. -/
def get_color_for_rank (rank : ℕ) : String :=
  if rank ≤ 6 then "#ffcccc"
  else if rank ≤ 12 then "#ffe5cc"
  else if rank ≤ 18 then "#ffffcc"
  else if rank ≤ 24 then "#e5ffcc"
  else "#ccffcc"

/-- Difficulty level of a badge color, 5 = hardest (red) down to 1 = easiest
(green); used to state monotonicity of the color scale. -/
def colorDifficulty (c : String) : ℕ :=
  if c = "#ffcccc" then 5
  else if c = "#ffe5cc" then 4
  else if c = "#ffffcc" then 3
  else if c = "#e5ffcc" then 2
  else 1

/-!
Embedding of the grid builder `process_week_grid` and the rendering helpers
of `generate_report.py`.  DataFrames are lists of typed rows; day columns are
kept positionally (the list of day ordinals of the window).
-/

/-- The list of calendar-day ordinals of a window (generate_report.py
lines 58-62: `while curr <= end_date`). -/
def daysList (s e : ℕ) : List ℕ :=
  (List.range (e + 1 - s)).map (s + ·)

/-- Substring test used for `'vs.' in matchup`: `True` iff `pat` occurs in
`s` (modelled on the character list). -/
def strContains (s pat : String) : Bool :=
  (List.range (s.data.length + 1)).any fun i => pat.data.isPrefixOf (s.data.drop i)

/-- `matchup.split(' ')[2]` (generate_report.py line 93): the third
whitespace-separated token of the matchup string ("DEN vs. LAL" → "LAL"). -/
def matchupOpponent (matchup : String) : String :=
  (matchup.splitOn " ").getD 2 ""

/-- `'vs.' in matchup` (generate_report.py line 94). -/
def matchupIsHome (matchup : String) : Bool :=
  strContains matchup "vs."

/-- `def_ratings.get(opp_abbr, {'Rank': 15})['Rank']` (generate_report.py
line 72): look up the opponent's defensive rank, defaulting to 15. -/
def lookupRank (def_ratings : List (String × ℕ)) (abbr : String) : ℕ :=
  ((def_ratings.find? (fun p => p.1 == abbr)).map Prod.snd).getD 15

/-- `get_badge_html` (generate_report.py lines 71-76). -/
def get_badge_html (def_ratings : List (String × ℕ)) (opp_abbr : String)
    (is_home : Bool) : String :=
  let rank := lookupRank def_ratings opp_abbr
  let color := get_color_for_rank rank
  let homeAwayMark := if is_home then "vs" else "@"
  "<div style='background-color:" ++ color ++
    "; padding: 4px; border-radius: 4px; text-align:center; font-weight:bold;' title='Def Rank: " ++
    toString rank ++ "'>" ++ homeAwayMark ++ " " ++ opp_abbr ++ "</div>"

/-- One row of the team schedule grid (generate_report.py lines 79-98):
team id, abbreviation, game count, and one badge/blank cell per day of the
window (positional). -/
structure TeamRow where
  team_id : ℕ
  team : String
  games : ℕ
  cells : List String
deriving Repr, DecidableEq

/-- Order-preserving unique team ids, as `week_games['TEAM_ID'].unique()`
(first occurrence order). -/
def uniqueFirst : List ℕ → List ℕ
  | [] => []
  | x :: xs => x :: uniqueFirst (xs.filter (fun t => t ≠ x))
termination_by l => l.length
decreasing_by
  simp only [List.length_cons]
  exact Nat.lt_succ_of_le (List.length_filter_le _ _)

/-- The team-grid loop body (generate_report.py lines 82-98) for one team id:
`none` corresponds to the `continue` on an empty slice. -/
def buildTeamRow (def_ratings : List (String × ℕ)) (week_games : List GameRow)
    (days : List ℕ) (tid : ℕ) : Option TeamRow :=
  let t_games := week_games.filter (fun g => g.team_id == tid)
  match t_games with
  | [] => none
  | g0 :: _ => some
    { team_id := tid
      team := g0.team_abbr
      games := t_games.length
      cells := days.map fun d =>
        match t_games.filter (fun g => g.game_date == d) with
        | [] => ""
        | g :: _ => get_badge_html def_ratings (matchupOpponent g.matchup)
            (matchupIsHome g.matchup) }

/-- Insertion into a list sorted by descending game count
(`team_df.sort_values('Games', ascending=False)`, line 102). -/
def insertByGames (r : TeamRow) : List TeamRow → List TeamRow
  | [] => [r]
  | x :: xs => if x.games ≤ r.games then r :: x :: xs else x :: insertByGames r xs

/-- Sort team rows by descending game count. -/
def sortByGamesDesc (rows : List TeamRow) : List TeamRow :=
  rows.foldr insertByGames []

/-- The team schedule grid of `process_week_grid` (generate_report.py
lines 67-102): filter the schedule to the window, build one row per distinct
team id, sort by descending game count. -/
def buildTeamGrid (def_ratings : List (String × ℕ)) (schedule : List GameRow)
    (s e : ℕ) : List TeamRow :=
  let week_games := schedule.filter (fun g => s ≤ g.game_date && g.game_date ≤ e)
  let days := daysList s e
  sortByGamesDesc ((uniqueFirst (week_games.map (fun g => g.team_id))).filterMap
    (buildTeamRow def_ratings week_games days))

/-- The three stats DataFrames returned by `get_player_stats_multi_period`. -/
structure StatsDict where
  season : List StatRow
  l7 : List StatRow
  l14 : List StatRow
deriving Repr, DecidableEq

/-- One row of the merged player table (generate_report.py lines 104-129).
The season row is the anchor; `l7`/`l14` are the left-joined rows (present or
missing); `sched` is `none` when the team grid was empty (the schedule
columns are never created, lines 119-129), and otherwise carries the game
count and day cells after the `fillna` defaults (0 games, `"-"` cells). -/
structure MergedRow where
  season : StatRow
  l7 : Option StatRow
  l14 : Option StatRow
  sched : Option (ℕ × List String)
deriving Repr, DecidableEq

/-- The player-table construction of `process_week_grid` (generate_report.py
lines 104-129): filter season stats to `GP > 0`, left-join L7 and L14 by
player id, and left-join the team schedule grid by team abbreviation with
`fillna(0)` / `fillna('-')` defaults when the grid is non-empty. -/
def mergedRows (sd : StatsDict) (team_df : List TeamRow) (days : List ℕ) :
    List MergedRow :=
  let base := sd.season.filter (fun r => 0 < r.gp)
  base.map fun b =>
    { season := b
      l7 := sd.l7.find? (fun r => r.player_id == b.player_id)
      l14 := sd.l14.find? (fun r => r.player_id == b.player_id)
      sched :=
        if team_df.isEmpty then none
        else some (match team_df.find? (fun t => t.team == b.team_abbr) with
          | some t => (t.games, t.cells)
          | none => (0, days.map fun _ => "-")) }

/-- `process_week_grid(start, end, schedule, stats, ratings)` restricted to
its two data outputs (team grid and merged player table); day columns are
positional. -/
def process_week_grid (s e : ℕ) (schedule : List GameRow) (sd : StatsDict)
    (def_ratings : List (String × ℕ)) : List TeamRow × List MergedRow :=
  let team_df := buildTeamGrid def_ratings schedule s e
  (team_df, mergedRows sd team_df (daysList s e))

/-- The game count rendered for a player row (generate_report.py line 217:
`row.get('Games', 0)` — 0 when the column does not exist). -/
def renderGames (r : MergedRow) : ℕ :=
  (r.sched.map Prod.fst).getD 0

/-- The day cell rendered for a player row (generate_report.py line 219:
`row.get(d, '')` — the empty string when the column does not exist). -/
def renderDayCell (r : MergedRow) (i : ℕ) : String :=
  match r.sched with
  | none => ""
  | some (_, cells) => cells.getD i ""

/-!
Embedding of the percentage formatting (generate_report.py lines 135-136)
and of `create_stat_cell` (lines 222-238).  Numeric values are exact
rationals; `'{:.1f}'.format` is modelled as rounding to one decimal with
round-half-to-even, which agrees with Python on every non-tie input.
-/

/-- Round a rational to the nearest integer, ties to even (the rounding of
Python's `format`). -/
def roundHalfEven (q : ℚ) : ℤ :=
  let f := ⌊q⌋
  let r := q - f
  if r < 1/2 then f
  else if 1/2 < r then f + 1
  else if Even f then f else f + 1

/-- `'{:.1f}'.format(q)`: one-decimal fixed-point rendering. -/
def pyFormat1f (q : ℚ) : String :=
  let n := roundHalfEven (q * 10)
  let a := n.natAbs
  (if n < 0 then "-" else "") ++ toString (a / 10) ++ "." ++ toString (a % 10)

/-- The FG%/FT% column formatting (generate_report.py line 135):
`(pct * 100).map('{:.1f}%'.format)`. -/
def pctDisplay (q : ℚ) : String :=
  pyFormat1f (q * 100) ++ "%"

/-- A Python value as it appears in a merged-table cell: a string, a float,
or an int. -/
inductive PyVal where
  | pstr (s : String)
  | pfloat (q : ℚ)
  | pint (n : ℤ)
deriving Repr, DecidableEq

/-- Parse a nonempty digit string to a natural number (`None` on any
non-digit). -/
def digitsToNat (cs : List Char) : Option ℕ :=
  if cs ≠ [] ∧ cs.all (·.isDigit) then
    some (cs.foldl (fun a c => a * 10 + (c.toNat - 48)) 0)
  else none

/-- Split a character list at every occurrence of `c` (the semantics of
Python's `str.split(c)` on the character sequence). -/
def splitOnChar (c : Char) : List Char → List (List Char)
  | [] => [[]]
  | x :: xs =>
    if x == c then [] :: splitOnChar c xs
    else
      match splitOnChar c xs with
      | [] => [[x]]
      | cur :: rest => (x :: cur) :: rest

/-- Python's `float(s)` restricted to the shapes produced here: an optional
integer part, an optional dot and fractional part. -/
def parseDecimal (s : String) : Option ℚ :=
  match splitOnChar '.' s.data with
  | [a] => (digitsToNat a).map (fun n => (n : ℚ))
  | [a, b] =>
    match digitsToNat a, digitsToNat b with
    | some x, some y => some ((x : ℚ) + (y : ℚ) / 10 ^ b.length)
    | _, _ => none
  | _ => none

/-- Python's `s.strip('%')`: remove `'%'` characters from both ends. -/
def stripPctChar (s : String) : String :=
  String.mk (((s.data.dropWhile (· == '%')).reverse.dropWhile (· == '%')).reverse)

/-- The sort value of `create_stat_cell` (generate_report.py lines 226-230):
a string containing `'%'` is stripped and parsed as a float (0 on failure);
anything else is passed through. This value is emitted in the cell's
`data-order` attribute. -/
def cellSortVal : PyVal → PyVal
  | PyVal.pstr s =>
    if s.data.contains '%' then
      match parseDecimal (stripPctChar s) with
      | some q => PyVal.pfloat q
      | none => PyVal.pint 0
    else PyVal.pstr s
  | v => v

/-- The display value of `create_stat_cell` (generate_report.py
lines 233-235): floats are formatted to one decimal, everything else is
shown as-is. -/
def cellDisplay : PyVal → String
  | PyVal.pfloat q => pyFormat1f q
  | PyVal.pstr s => s
  | PyVal.pint n => toString n

/-!
Theorems.
-/

/-- Helper: when all five attempts fail, `retry_api_call` returns the raised
error after sleeping `delay*1 + delay*2 + delay*3 + delay*4` seconds (no
sleep after the fifth, final, attempt). -/
theorem retry_api_call_all_fail {ε α : Type} (f : ℕ → Except ε α) (e : ε)
    (delay : ℕ) (h : ∀ i, i < 5 → f i = Except.error e) :
    retry_api_call f 5 delay =
      (some (Except.error e), delay * 1 + delay * 2 + delay * 3 + delay * 4) := by
  have h0 := h 0 (by omega)
  have h1 := h 1 (by omega)
  have h2 := h 2 (by omega)
  have h3 := h 3 (by omega)
  have h4 := h 4 (by omega)
  simp [retry_api_call, retryGo, h0, h1, h2, h3, h4]

/-- C1: the 4 weekly windows generated by `generate_html_report` are
contiguous and non-overlapping: for every i in 1..3, the start of week i+1
equals the end of week i plus 1 day, and each of weeks 2, 3 and 4 spans
exactly 7 calendar days (end = start + 6). -/
theorem weekWindows_contiguous (t : Date) :
    (weekWindows t).length = 4 ∧
    (∀ i, i < 3 →
      ((weekWindows t).getD (i + 1) (0, 0)).1 = ((weekWindows t).getD i (0, 0)).2 + 1) ∧
    (∀ i, 1 ≤ i → i < 4 →
      ((weekWindows t).getD i (0, 0)).2 = ((weekWindows t).getD i (0, 0)).1 + 6) := by
  refine ⟨rfl, ?_, ?_⟩
  · intro i hi
    interval_cases i <;> simp [weekWindows, weekWindowsAux]
  · intro i h1 h4
    interval_cases i <;> simp [weekWindows, weekWindowsAux]

/-- Witness for C1 at a concrete date. -/
theorem weekWindows_contiguous_witness :
    ((weekWindows ⟨2025, 11, 17⟩).getD 1 (0, 0)).1 =
      ((weekWindows ⟨2025, 11, 17⟩).getD 0 (0, 0)).2 + 1 ∧
    ((weekWindows ⟨2025, 11, 17⟩).getD 1 (0, 0)).2 =
      ((weekWindows ⟨2025, 11, 17⟩).getD 1 (0, 0)).1 + 6 :=
  ⟨(weekWindows_contiguous ⟨2025, 11, 17⟩).2.1 0 (by omega),
   (weekWindows_contiguous ⟨2025, 11, 17⟩).2.2 1 (by omega) (by omega)⟩

/-- C2 counterexample: on 2025-11-16 (a Sunday) the last day of week 4 is
today + 21, not today + 27, so the window does not span 28 days. -/
theorem weekWindows_span_counterexample :
    pyWeekday ⟨2025, 11, 16⟩ = 6 ∧
    ((weekWindows ⟨2025, 11, 16⟩).getD 3 (0, 0)).2 = toOrdinal ⟨2025, 11, 16⟩ + 21 ∧
    ((weekWindows ⟨2025, 11, 16⟩).getD 3 (0, 0)).2 ≠ toOrdinal ⟨2025, 11, 16⟩ + 27 := by
  decide

/-- C2 (amended): for every current date the window starts today and runs to
the upcoming Sunday (week 1 end has weekday Sunday), followed by three more
7-day weeks; the last day of week 4 is today + (6 - weekday) % 7 + 21, which
equals today + 27 exactly when today is a Monday (so the total span is 22 to
28 days, 28 only on Mondays). -/
theorem weekWindows_span (t : Date) :
    ((weekWindows t).getD 0 (0, 0)).1 = toOrdinal t ∧
    ((weekWindows t).getD 0 (0, 0)).2 = toOrdinal t + daysUntilSunday t ∧
    (toOrdinal t + daysUntilSunday t + 6) % 7 = 6 ∧
    daysUntilSunday t ≤ 6 ∧
    ((weekWindows t).getD 3 (0, 0)).2 = toOrdinal t + daysUntilSunday t + 21 ∧
    (((weekWindows t).getD 3 (0, 0)).2 = toOrdinal t + 27 ↔ pyWeekday t = 0) := by
  have h1 : ((weekWindows t).getD 0 (0, 0)).1 = toOrdinal t := by
    simp [weekWindows, weekWindowsAux]
  have h2 : ((weekWindows t).getD 0 (0, 0)).2 = toOrdinal t + daysUntilSunday t := by
    simp [weekWindows, weekWindowsAux]
  have h3 : ((weekWindows t).getD 3 (0, 0)).2 = toOrdinal t + daysUntilSunday t + 21 := by
    simp [weekWindows, weekWindowsAux]
  refine ⟨h1, h2, ?_, ?_, h3, ?_⟩
  · unfold daysUntilSunday pyWeekday
    omega
  · unfold daysUntilSunday pyWeekday
    omega
  · rw [h3]
    unfold daysUntilSunday pyWeekday
    omega

/-- C3: with 5 attempts and linear backoff, a call that raises transient
errors on attempts 1 and 2 and succeeds on attempt 3 makes `retry_api_call`
return the successful result having slept `delay*1 + delay*2` seconds in
total (15 s at the base delay of 5 s); and when every one of the 5 attempts
fails, the total sleep is `delay*1 + delay*2 + delay*3 + delay*4` — no sleep
follows the final failed attempt. -/
theorem retry_two_failures_then_success (f : ℕ → Except ℕ ℕ) (a e1 e2 : ℕ)
    (delay : ℕ) (h0 : f 0 = Except.error e1) (h1 : f 1 = Except.error e2)
    (h2 : f 2 = Except.ok a) :
    retry_api_call f 5 delay = (some (Except.ok a), delay * 1 + delay * 2) ∧
    retry_api_call f 5 5 = (some (Except.ok a), 15) ∧
    (∀ (g : ℕ → Except ℕ ℕ) (e : ℕ), (∀ i, i < 5 → g i = Except.error e) →
      retry_api_call g 5 delay =
        (some (Except.error e), delay * 1 + delay * 2 + delay * 3 + delay * 4)) := by
  refine ⟨?_, ?_, ?_⟩
  · simp [retry_api_call, retryGo, h0, h1, h2]
  · simp [retry_api_call, retryGo, h0, h1, h2]
  · intro g e hg
    exact retry_api_call_all_fail g e delay hg

/-- Witness for C3: a concrete transcript failing twice then succeeding,
with the base delay of 5 seconds, returns the result having slept 15 s. -/
theorem retry_two_failures_then_success_witness :
    retry_api_call (fun i => if i < 2 then Except.error i else Except.ok 42) 5 5 =
      (some (Except.ok 42), 15) :=
  (retry_two_failures_then_success
    (fun i => if i < 2 then Except.error i else Except.ok 42) 42 0 1 5
    rfl rfl rfl).2.1

/-- C4: when the retried remote call ultimately fails on every attempt, each
fetch site catches the exception and returns an empty result — an empty
schedule, empty stats frames, and an empty ratings mapping — instead of
propagating the error (in particular the schedule path does not re-raise). -/
theorem fetch_failure_yields_empty (fs : ℕ → Except ℕ (List GameRow))
    (fp : ℕ → Except ℕ (List StatRow)) (fd : ℕ → Except ℕ (List TeamAdvRow))
    (idToAbbr : List (ℕ × String)) (e1 e2 e3 : ℕ)
    (hs : ∀ i, i < 5 → fs i = Except.error e1)
    (hp : ∀ i, i < 5 → fp i = Except.error e2)
    (hd : ∀ i, i < 5 → fd i = Except.error e3) :
    get_schedule fs = [] ∧ fetch_stats fp = [] ∧
    get_team_defensive_ratings fd idToAbbr = [] := by
  refine ⟨?_, ?_, ?_⟩
  · simp [get_schedule, retry_api_call_all_fail fs e1 5 hs]
  · simp [fetch_stats, retry_api_call_all_fail fp e2 5 hp]
  · simp [get_team_defensive_ratings, retry_api_call_all_fail fd e3 5 hd]

/-- Witness for C4 with concrete always-failing transcripts. -/
theorem fetch_failure_yields_empty_witness :
    get_schedule (fun _ => Except.error 0) = [] ∧
    fetch_stats (fun _ => Except.error 0) = [] ∧
    get_team_defensive_ratings (fun _ => Except.error 0) [] = [] :=
  fetch_failure_yields_empty (fun _ => Except.error 0) (fun _ => Except.error 0)
    (fun _ => Except.error 0) [] 0 0 0
    (fun _ _ => rfl) (fun _ _ => rfl) (fun _ _ => rfl)

/-- C5: for every rank 1..30, `get_color_for_rank` returns one of exactly 5
fixed colors with bucket boundaries at 6/12/18/24 (1-6 red, 7-12 orange,
13-18 yellow, 19-24 light green, 25-30 green), and difficulty is
monotonically non-increasing in the rank. -/
theorem color_for_rank_buckets :
    (∀ r, r < 31 → 1 ≤ r →
      ((1 ≤ r ∧ r ≤ 6) → get_color_for_rank r = "#ffcccc") ∧
      ((7 ≤ r ∧ r ≤ 12) → get_color_for_rank r = "#ffe5cc") ∧
      ((13 ≤ r ∧ r ≤ 18) → get_color_for_rank r = "#ffffcc") ∧
      ((19 ≤ r ∧ r ≤ 24) → get_color_for_rank r = "#e5ffcc") ∧
      ((25 ≤ r ∧ r ≤ 30) → get_color_for_rank r = "#ccffcc") ∧
      get_color_for_rank r ∈ ["#ffcccc", "#ffe5cc", "#ffffcc", "#e5ffcc", "#ccffcc"]) ∧
    (∀ r, r < 31 → ∀ r', r' < 31 → 1 ≤ r → r ≤ r' →
      colorDifficulty (get_color_for_rank r') ≤ colorDifficulty (get_color_for_rank r)) := by
  constructor
  · intro r h31 h1
    interval_cases r <;> exact ⟨by decide, by decide, by decide, by decide, by decide, by decide⟩
  · decide

/-- Witness for C5 at concrete ranks. -/
theorem color_for_rank_buckets_witness :
    get_color_for_rank 7 = "#ffe5cc" ∧
    colorDifficulty (get_color_for_rank 20) ≤ colorDifficulty (get_color_for_rank 3) :=
  ⟨((color_for_rank_buckets.1 7 (by omega) (by omega)).2.1) ⟨by omega, by omega⟩,
   color_for_rank_buckets.2 3 (by omega) 20 (by omega) (by omega) (by omega)⟩

/-- Sample schedule row used by concrete witnesses. -/
def sampleGame : GameRow := ⟨1610612743, "DEN", 100, "DEN vs. LAL"⟩

/-- Sample season stat row used by concrete witnesses. -/
def sampleStat : StatRow :=
  ⟨203999, "Nikola Jokic", 1610612743, "DEN", 5, 34, 28, 12, 9, 1, 1,
   457/1000, 82/100, 1⟩

/-- Sample stats dictionary (season only, L7/L14 empty) used by witnesses. -/
def sampleStats : StatsDict := ⟨[sampleStat], [], []⟩

/-- C6: if the schedule has zero rows in the window, `process_week_grid`
produces an empty team grid, and every row of the rendered player table has
game count 0 and the renderer's placeholder (the empty string) in every day
column. -/
theorem empty_window_grid (schedule : List GameRow) (sd : StatsDict)
    (def_ratings : List (String × ℕ)) (s e : ℕ)
    (h : schedule.filter (fun g => s ≤ g.game_date && g.game_date ≤ e) = []) :
    (process_week_grid s e schedule sd def_ratings).1 = [] ∧
    ∀ r ∈ (process_week_grid s e schedule sd def_ratings).2,
      renderGames r = 0 ∧ ∀ i, renderDayCell r i = "" := by
  have hgrid : buildTeamGrid def_ratings schedule s e = [] := by
    simp [buildTeamGrid, h, uniqueFirst, sortByGamesDesc]
  constructor
  · simpa [process_week_grid] using hgrid
  · intro r hr
    simp only [process_week_grid, hgrid, mergedRows, List.mem_map] at hr
    obtain ⟨b, _, rfl⟩ := hr
    exact ⟨rfl, fun i => rfl⟩

/-- Witness for C6: a schedule whose only game is outside the window. -/
theorem empty_window_grid_witness :
    (process_week_grid 0 50 [sampleGame] sampleStats []).1 = [] ∧
    ∀ r ∈ (process_week_grid 0 50 [sampleGame] sampleStats []).2,
      renderGames r = 0 ∧ ∀ i, renderDayCell r i = "" :=
  empty_window_grid [sampleGame] sampleStats [] 0 50 (by decide)

/-- C7: a player present in season stats with games played > 0 but absent
from the L7 table still appears in the merged table — the left joins on
player id never drop a season row (the merged table has exactly one row per
season row with GP > 0) — with the season columns populated and the L7
column missing (`none`), the L14 column being whatever the L14 left join
finds. -/
theorem season_row_preserved (sd : StatsDict) (team_df : List TeamRow)
    (days : List ℕ) (b : StatRow) (hb : b ∈ sd.season) (hgp : 0 < b.gp)
    (h7 : sd.l7.find? (fun r => r.player_id == b.player_id) = none) :
    (mergedRows sd team_df days).length =
      (sd.season.filter (fun r => 0 < r.gp)).length ∧
    ∃ r ∈ mergedRows sd team_df days,
      r.season = b ∧ r.l7 = none ∧
      r.l14 = sd.l14.find? (fun x => x.player_id == b.player_id) := by
  constructor
  · simp [mergedRows]
  · refine ⟨_, List.mem_map_of_mem _ (List.mem_filter.2 ⟨hb, by simpa using hgp⟩),
      rfl, ?_, rfl⟩
    exact h7

/-- Witness for C7: a season row with empty L7/L14 tables survives the merge. -/
theorem season_row_preserved_witness :
    (mergedRows sampleStats [] []).length =
      (sampleStats.season.filter (fun r => 0 < r.gp)).length ∧
    ∃ r ∈ mergedRows sampleStats [] [],
      r.season = sampleStat ∧ r.l7 = none ∧
      r.l14 = sampleStats.l14.find? (fun x => x.player_id == sampleStat.player_id) :=
  season_row_preserved sampleStats [] [] sampleStat (by simp [sampleStats])
    (by decide) rfl

/-- C8: formatting the raw season field-goal ratio 0.457 yields the display
string "45.7%", and the stat cell built from it carries the numeric sort
value 45.7 (as its `data-order` value) while displaying "45.7%" — the round
trip through the cell builder recovers the scaled numeric value. -/
theorem pct_cell_roundtrip :
    pctDisplay (457 / 1000) = "45.7%" ∧
    cellSortVal (PyVal.pstr (pctDisplay (457 / 1000))) = PyVal.pfloat (457 / 10) ∧
    cellDisplay (PyVal.pstr (pctDisplay (457 / 1000))) = "45.7%" := by
  have e : (457 / 1000 : ℚ) * 100 * 10 = 457 := by norm_num
  have hr : roundHalfEven ((457 / 1000 : ℚ) * 100 * 10) = 457 := by
    rw [e]
    unfold roundHalfEven
    norm_num
  have hs : pctDisplay (457 / 1000) = "45.7%" := by
    simp only [pctDisplay, pyFormat1f, hr]
    decide
  have hparse : cellSortVal (PyVal.pstr "45.7%") =
      PyVal.pfloat (((45 : ℕ) : ℚ) + ((7 : ℕ) : ℚ) / 10 ^ (1 : ℕ)) := rfl
  refine ⟨hs, ?_, ?_⟩
  · rw [hs, hparse]
    simp only [PyVal.pfloat.injEq]
    norm_num
  · rw [hs]
    rfl

/-- Helper: `Nat.toDigitsCore` with a nonempty accumulator equals the
accumulator appended to the run with an empty one. -/
theorem toDigitsCore_shift : ∀ (f : ℕ), ∀ (n : ℕ) (ds : List Char), n < f →
    Nat.toDigitsCore 10 f n ds = Nat.toDigitsCore 10 f n [] ++ ds := by
  intro f
  induction f with
  | zero => intro n ds h; omega
  | succ f ih =>
    intro n ds h
    simp only [Nat.toDigitsCore]
    by_cases h0 : n / 10 = 0
    · simp [h0]
    · have hb : n / 10 < f := by
        have h1 : 0 < n := by
          rcases Nat.eq_zero_or_pos n with h' | h'
          · exfalso; apply h0; simp [h']
          · exact h'
        have := Nat.div_lt_self h1 (by omega : 1 < 10)
        omega
      simp only [h0, if_false]
      rw [ih (n / 10) (Nat.digitChar (n % 10) :: ds) hb,
          ih (n / 10) [Nat.digitChar (n % 10)] hb]
      simp

/-- Helper: `Nat.toDigitsCore` does not depend on the fuel once the fuel
exceeds the number. -/
theorem toDigitsCore_fuel : ∀ (f f' n : ℕ), n < f → n < f' →
    Nat.toDigitsCore 10 f n [] = Nat.toDigitsCore 10 f' n [] := by
  intro f
  induction f with
  | zero => intro f' n h; omega
  | succ f ih =>
    intro f' n h h'
    cases f' with
    | zero => omega
    | succ f' =>
      simp only [Nat.toDigitsCore]
      by_cases h0 : n / 10 = 0
      · simp [h0]
      · have h1 : 0 < n := by
          rcases Nat.eq_zero_or_pos n with h2 | h2
          · exfalso; apply h0; simp [h2]
          · exact h2
        have hlt := Nat.div_lt_self h1 (by omega : 1 < 10)
        simp only [h0, if_false]
        rw [toDigitsCore_shift f (n / 10) [Nat.digitChar (n % 10)] (by omega),
            toDigitsCore_shift f' (n / 10) [Nat.digitChar (n % 10)] (by omega),
            ih f' (n / 10) (by omega) (by omega)]

/-- Helper: decimal digits of `n ≥ 10` are the digits of `n / 10` followed by
the last digit. -/
theorem toDigits_div10 (n : ℕ) (h : 10 ≤ n) :
    Nat.toDigits 10 n = Nat.toDigits 10 (n / 10) ++ [Nat.digitChar (n % 10)] := by
  have h0 : ¬ (n / 10 = 0) := by
    intro h'
    have := Nat.div_eq_zero_iff (by omega : 0 < 10) |>.1 h'
    omega
  have hlt := Nat.div_lt_self (by omega : 0 < n) (by omega : 1 < 10)
  calc Nat.toDigits 10 n
      = Nat.toDigitsCore 10 (n + 1) n [] := rfl
    _ = Nat.toDigitsCore 10 n (n / 10) [Nat.digitChar (n % 10)] := by
        simp only [Nat.toDigitsCore]
        simp [h0]
    _ = Nat.toDigitsCore 10 n (n / 10) [] ++ [Nat.digitChar (n % 10)] :=
        toDigitsCore_shift n (n / 10) [Nat.digitChar (n % 10)] hlt
    _ = Nat.toDigitsCore 10 (n / 10 + 1) (n / 10) [] ++ [Nat.digitChar (n % 10)] := by
        rw [toDigitsCore_fuel n (n / 10 + 1) (n / 10) hlt (by omega)]
    _ = Nat.toDigits 10 (n / 10) ++ [Nat.digitChar (n % 10)] := rfl

/-- Helper: a single decimal digit renders as one character. -/
theorem toDigits_single : ∀ m, m < 10 → Nat.toDigits 10 m = [Nat.digitChar m] := by
  decide

/-- Helper: `toString` on a natural number is `Nat.toDigits` at base 10. -/
theorem toString_nat_data (n : ℕ) : (toString n).data = Nat.toDigits 10 n := rfl

/-- Helper: for `n ≥ 10` the decimal string of `n` ends in the characters of
its last two digits. -/
theorem repr_last2 (n : ℕ) (h : 10 ≤ n) :
    ∃ L, (toString n).data =
      L ++ [Nat.digitChar (n / 10 % 10), Nat.digitChar (n % 10)] := by
  by_cases h100 : n < 100
  · refine ⟨[], ?_⟩
    rw [toString_nat_data, toDigits_div10 n h,
        toDigits_single (n / 10) (by omega)]
    have : n / 10 % 10 = n / 10 := Nat.mod_eq_of_lt (by omega)
    rw [this]
    rfl
  · refine ⟨Nat.toDigits 10 (n / 10 / 10), ?_⟩
    rw [toString_nat_data, toDigits_div10 n h,
        toDigits_div10 (n / 10) (by omega)]
    simp

/-- Helper: `twoDigit n` is the two-character string of the last two decimal
digits of `n`. -/
theorem twoDigit_eq_chars (n : ℕ) :
    twoDigit n = String.mk [Nat.digitChar (n / 10 % 10), Nat.digitChar (n % 10)] := by
  apply String.ext
  unfold twoDigit
  by_cases hm : n % 100 < 10
  · simp only [hm, if_true, String.data_append, toString_nat_data]
    rw [toDigits_single (n % 100) (by omega)]
    have h1 : n / 10 % 10 = 0 := by omega
    have h2 : n % 100 = n % 10 := by omega
    rw [h1, h2]
    rfl
  · simp only [hm, if_false, String.data_append, toString_nat_data]
    rw [toDigits_div10 (n % 100) (by omega),
        toDigits_single (n % 100 / 10) (by omega)]
    have h1 : n % 100 / 10 = n / 10 % 10 := by omega
    have h2 : n % 100 % 10 = n % 10 := by omega
    rw [h1, h2]
    rfl

/-- Helper: for every `n ≥ 10`, Python's `str(n)[-2:]` equals the zero-padded
last two decimal digits of `n`. -/
theorem lastTwo_eq_twoDigit (n : ℕ) (h : 10 ≤ n) : lastTwoStr n = twoDigit n := by
  obtain ⟨L, hd⟩ := repr_last2 n h
  rw [twoDigit_eq_chars]
  unfold lastTwoStr
  have hlen : (toString n).length = L.length + 2 := by
    rw [show (toString n).length = (toString n).data.length from rfl, hd]
    simp
  rw [String.drop_eq, hlen, hd]
  apply String.ext
  simp

/-- C9: for every date used as today (any year with at least two decimal
digits), the season label is "{Y}-{last two digits of Y+1}" when the month is
October or later and "{Y-1}-{last two digits of Y}" otherwise; in particular
2025-11 yields "2025-26" and 2025-03 yields "2024-25". -/
theorem season_label_correct (y m : ℕ) (hy : 10 ≤ y) :
    season_str y m = seasonLabelSpec y m ∧
    season_str 2025 11 = "2025-26" ∧
    season_str 2025 3 = "2024-25" := by
  have hex1 : season_str 2025 11 = "2025-26" := by
    unfold season_str
    rw [if_pos (by omega : (10:ℕ) ≤ 11), lastTwo_eq_twoDigit 2026 (by omega)]
    decide
  have hex2 : season_str 2025 3 = "2024-25" := by
    unfold season_str
    rw [if_neg (by omega : ¬ (10:ℕ) ≤ 3), lastTwo_eq_twoDigit 2025 (by omega)]
    decide
  refine ⟨?_, hex1, hex2⟩
  unfold season_str seasonLabelSpec
  by_cases hm : 10 ≤ m
  · rw [if_pos hm, if_pos hm, lastTwo_eq_twoDigit (y + 1) (by omega)]
  · rw [if_neg hm, if_neg hm, lastTwo_eq_twoDigit y hy]

/-- Witness for C9 at the spec's example dates. -/
theorem season_label_correct_witness :
    season_str 2025 11 = seasonLabelSpec 2025 11 ∧
    season_str 2025 11 = "2025-26" ∧
    season_str 2025 3 = "2024-25" :=
  season_label_correct 2025 11 (by omega)

/-- The date-derived values computed by one run of the pipeline: the report
window bounds and season label come from the (possibly time-travelled)
`today` of `generate_html_report` (generate_report.py lines 13-37), while the
L7/L14 `date_from` filters come from `get_player_stats_multi_period`, which
reads the system clock again without the year override (utils.py
lines 107-122). -/
structure ReportDates where
  w1_start : ℕ
  final_end : ℕ
  season : String
  l7_since : Date
  l14_since : Date
deriving Repr, DecidableEq

/-- The date computations of one report run from the system date. -/
def generate_html_report_dates (sysToday : Date) : ReportDates :=
  let today := timeTravel sysToday
  { w1_start := toOrdinal today
    final_end := toOrdinal today + daysUntilSunday today + 21
    season := season_str today.y today.m
    l7_since := (get_player_stats_multi_period_dates sysToday).1
    l14_since := (get_player_stats_multi_period_dates sysToday).2 }

/-- The property asserted by claim C10 for the system date 2024-m-d: the
window start is the time-travelled (2025) date while the L7/L14 `date_from`
filters are system-today minus 7 resp. 14 days, one year (365/366 days) plus
7 resp. 14 days before the displayed window's start. -/
def windowVsStatsProp (m d : ℕ) : Prop :=
  (timeTravel ⟨2024, m, d⟩).y = 2025 ∧
  (generate_html_report_dates ⟨2024, m, d⟩).w1_start =
    toOrdinal (timeTravel ⟨2024, m, d⟩) ∧
  (generate_html_report_dates ⟨2024, m, d⟩).l7_since = subDays ⟨2024, m, d⟩ 7 ∧
  (generate_html_report_dates ⟨2024, m, d⟩).l14_since = subDays ⟨2024, m, d⟩ 14 ∧
  ((generate_html_report_dates ⟨2024, m, d⟩).w1_start =
      toOrdinal ⟨2024, m, d⟩ + 365 ∨
    (generate_html_report_dates ⟨2024, m, d⟩).w1_start =
      toOrdinal ⟨2024, m, d⟩ + 366) ∧
  toOrdinal ((generate_html_report_dates ⟨2024, m, d⟩).l7_since) + 7 =
    toOrdinal ⟨2024, m, d⟩ ∧
  toOrdinal ((generate_html_report_dates ⟨2024, m, d⟩).l14_since) + 14 =
    toOrdinal ⟨2024, m, d⟩

instance windowVsStatsPropDec (m d : ℕ) : Decidable (windowVsStatsProp m d) := by
  unfold windowVsStatsProp
  infer_instance

/-- C10: when the year-override fires (system year 2024), the report window
is computed from the shifted 2025 date, but the L7/L14 `date_from` filters
are computed from the unmodified system date: they equal system-today minus
7 resp. 14 days, which lie 365 or 366 days (one year) plus 7 resp. 14 days
before the displayed window's start. -/
theorem time_travel_window_vs_stats :
    ∀ m, m < 13 → ∀ d, d < 32 → isValidDate 2024 m d = true →
      windowVsStatsProp m d := by
  set_option maxRecDepth 40000 in
  decide

/-- Witness for C10 at the concrete system date 2024-06-15. -/
theorem time_travel_window_vs_stats_witness :
    (timeTravel ⟨2024, 6, 15⟩).y = 2025 ∧
    (generate_html_report_dates ⟨2024, 6, 15⟩).w1_start =
      toOrdinal (timeTravel ⟨2024, 6, 15⟩) ∧
    (generate_html_report_dates ⟨2024, 6, 15⟩).l7_since = subDays ⟨2024, 6, 15⟩ 7 ∧
    (generate_html_report_dates ⟨2024, 6, 15⟩).l14_since = subDays ⟨2024, 6, 15⟩ 14 ∧
    ((generate_html_report_dates ⟨2024, 6, 15⟩).w1_start =
        toOrdinal ⟨2024, 6, 15⟩ + 365 ∨
      (generate_html_report_dates ⟨2024, 6, 15⟩).w1_start =
        toOrdinal ⟨2024, 6, 15⟩ + 366) ∧
    toOrdinal ((generate_html_report_dates ⟨2024, 6, 15⟩).l7_since) + 7 =
      toOrdinal ⟨2024, 6, 15⟩ ∧
    toOrdinal ((generate_html_report_dates ⟨2024, 6, 15⟩).l14_since) + 14 =
      toOrdinal ⟨2024, 6, 15⟩ :=
  time_travel_window_vs_stats 6 (by omega) 15 (by omega) (by decide)
